import Mathlib

/-!
Verification of the AFLOW AFLUX client `src/aflow.py` (class `AflowAPI`).

Strings are embedded as `List Char`.  Character classification
(`str.isspace`, `str.isalpha`, `str.isnumeric`) is Unicode-aware in Python;
the embedding keeps these predicates as parameters of the client
configuration, together with the constants imported from
`src/utils/constants.py` (which is not part of the sources): the operator
set, the keyword set, the server origin, the API path and the default
paging value.  All theorems about the client are proved for every value of
these parameters unless a concrete value is forced (see
`AFLOW_DEFAULT_PAGING`).
-/

namespace PyAflow

/-- Python constant `string.punctuation` (the 32 ASCII punctuation
characters), used by `_is_query_valid` via `c in string.punctuation`. -/
def pythonPunctuation : List Char :=
  ("!\"#$%&\x27()*+,-./:;<=>?@[\\]^_`\x7b|\x7d~").data

/-- Python substring test `pat in s` (true for the empty pattern). -/
def containsSub (pat : List Char) : List Char → Bool
  | [] => pat.isEmpty
  | c :: rest => pat.isPrefixOf (c :: rest) || containsSub pat rest

/-- Fuelled core of Python `s.replace(pat, "")`: scan left to right and
drop each non-overlapping occurrence of `pat`.  Each step consumes at
least one character of `s`, so fuel `s.length` is enough.  The empty
pattern leaves the string unchanged (as Python does when the replacement
is empty). -/
def removeAllFuel (pat : List Char) : Nat → List Char → List Char
  | _, [] => []
  | 0, s => s
  | fuel + 1, c :: rest =>
    if pat.isEmpty then c :: removeAllFuel pat fuel rest
    else if pat.isPrefixOf (c :: rest) then
      removeAllFuel pat fuel (List.drop (pat.length - 1) rest)
    else c :: removeAllFuel pat fuel rest

/-- Python `s.replace(pat, "")`. -/
def removeAll (pat s : List Char) : List Char :=
  removeAllFuel pat s.length s

/-- Python `s.replace(old, new)` for one-character `old`/`new`, as used by
`entry["aurl"].replace(":", "/")`. -/
def replaceChar (old new : Char) (s : List Char) : List Char :=
  s.map (fun c => if c = old then new else c)

/-- Python `s.strip()` with whitespace test `issp`: drop leading and
trailing whitespace characters. -/
def stripList (issp : Char → Bool) (s : List Char) : List Char :=
  ((s.dropWhile issp).reverse.dropWhile issp).reverse

/-- Python `s.split(sep)` for a one-character separator `sep`: split at
every occurrence, keeping empty pieces (`"".split(sep) = [""]`). -/
def splitOnChar (sep : Char) : List Char → List (List Char)
  | [] => [[]]
  | c :: rest =>
    match splitOnChar sep rest with
    | [] => [[]]
    | h :: t => if c = sep then [] :: h :: t else (c :: h) :: t

/-- Python `sep.join(pieces)`. -/
def joinBy (sep : List Char) : List (List Char) → List Char
  | [] => []
  | [l] => l
  | l :: ls => l ++ sep ++ joinBy sep ls

/-- Python `list.insert(i, x)` (for the lists of lines of `get_contcar`). -/
def pyInsert (i : Nat) (x : List Char) (l : List (List Char)) : List (List Char) :=
  l.take i ++ [x] ++ l.drop i

/-- Python `str(i)` for an integer, as used by the f-string building the
paging directive. -/
def intStr (i : Int) : List Char :=
  (toString i).data

/-- Configuration of the client: the character-classification predicates
and the constants imported from `src/utils/constants.py` (class
attributes `API_OPERATORS`, `API_KEYWORDS`, `SERVER`, `API`,
`DEFAULT_PAGING` of `AflowAPI`). -/
structure AflowConfig where
  isspace : Char → Bool
  isalpha : Char → Bool
  isnumeric : Char → Bool
  operators : List Char
  keywords : List (List Char)
  server : List Char
  api : List Char
  defaultPaging : Int

/-- Method `AflowAPI._is_query_valid` (src/aflow.py lines 72-84):
three checks, all of which must hold. -/
def isQueryValid (cfg : AflowConfig) (query : List Char) : Bool :=
  let check_spaces := query.any cfg.isspace
  let query_operators := query.filter (fun c => pythonPunctuation.contains c)
  let check_operators := query_operators.all (fun c => cfg.operators.contains c)
  let query_keywords := query.filter cfg.isalpha
  let query_keywords := cfg.keywords.foldl
    (fun s key => if containsSub key s then removeAll key s else s) query_keywords
  let check_keywords := query_keywords.length == 0
  check_spaces && check_operators && check_keywords

/-- Removal of every keyword of the keyword set, in order, from a string:
the spec-side reading of the keyword check of `_is_query_valid` (without
the redundant membership guard of the source loop). -/
def removeKeywords (keys : List (List Char)) (s : List Char) : List Char :=
  keys.foldl (fun acc key => removeAll key acc) s

theorem containsSub_nil_pat (s : List Char) : containsSub [] s = true := by
  cases s <;> simp [containsSub, List.isPrefixOf]

theorem removeAllFuel_of_not_contains (pat : List Char) :
    ∀ (fuel : Nat) (s : List Char), containsSub pat s = false →
      removeAllFuel pat fuel s = s := by
  intro fuel
  induction fuel with
  | zero => intro s _; cases s <;> rfl
  | succ n ih =>
    intro s h
    cases s with
    | nil => rfl
    | cons c rest =>
      have hpat : pat ≠ [] := by
        intro he; rw [he, containsSub_nil_pat] at h; exact Bool.noConfusion h
      simp only [containsSub, Bool.or_eq_false_iff] at h
      simp [removeAllFuel, List.isEmpty_iff, hpat, h.1, ih rest h.2]

theorem removeAll_of_not_contains (pat s : List Char)
    (h : containsSub pat s = false) : removeAll pat s = s :=
  removeAllFuel_of_not_contains pat s.length s h

theorem foldl_guard_eq (keys : List (List Char)) :
    ∀ s : List Char,
      keys.foldl (fun acc key => if containsSub key acc then removeAll key acc else acc) s
        = keys.foldl (fun acc key => removeAll key acc) s := by
  induction keys with
  | nil => intro s; rfl
  | cons k ks ih =>
    intro s
    simp only [List.foldl_cons]
    by_cases h : containsSub k s = true
    · rw [if_pos h]; exact ih _
    · rw [if_neg h, removeAll_of_not_contains k s (Bool.eq_false_iff.mpr h)]
      exact ih _

/-- C1: `is_query_valid(q)` is true iff (1) some character of `q` is
whitespace, (2) every punctuation character of `q` is in the allowed
operator set, and (3) removing every keyword of the keyword set from the
alphabetic characters of `q` leaves nothing; in particular
`is_query_valid("")` is false. -/
theorem is_query_valid_spec (cfg : AflowConfig) (q : List Char) :
    (isQueryValid cfg q = true ↔
      ((∃ c ∈ q, cfg.isspace c = true) ∧
       (∀ c ∈ q, c ∈ pythonPunctuation → c ∈ cfg.operators) ∧
       removeKeywords cfg.keywords (q.filter cfg.isalpha) = []))
    ∧ isQueryValid cfg [] = false := by
  constructor
  · simp only [isQueryValid, removeKeywords]
    rw [foldl_guard_eq]
    simp only [Bool.and_eq_true, List.any_eq_true, List.all_eq_true, List.mem_filter,
      beq_iff_eq, List.length_eq_zero, List.contains, List.elem_iff, decide_eq_true_eq]
    constructor
    · rintro ⟨⟨hsp, hop⟩, hkw⟩
      exact ⟨hsp, fun c hc hp => hop c ⟨hc, by simpa [List.contains, List.elem_iff] using hp⟩, hkw⟩
    · rintro ⟨hsp, hop, hkw⟩
      exact ⟨⟨hsp, fun c hc => hop c hc.1 (by simpa [List.contains, List.elem_iff] using hc.2)⟩, hkw⟩
  · simp [isQueryValid]

/-- Outcome of running one Python method: a returned value or a raised
exception.  `valueError`, `runtimeError` and `attributeError` carry the
exception message. -/
inductive PyOutcome (α : Type) where
  | ok : α → PyOutcome α
  | valueError : String → PyOutcome α
  | runtimeError : String → PyOutcome α
  | attributeError : String → PyOutcome α
  | keyError : PyOutcome α
  | typeError : PyOutcome α
  | indexError : PyOutcome α
deriving DecidableEq

/-- Whether the outcome is a raised `ValueError` (any message). -/
def PyOutcome.isValueError : PyOutcome α → Bool
  | .valueError _ => true
  | _ => false

/-- Python values occurring in AFLUX JSON responses and entries. -/
inductive PyVal where
  | str : List Char → PyVal
  | int : Int → PyVal
  | list : List PyVal → PyVal
  | dict : List (List Char × PyVal) → PyVal

/-- One HTTP response of the underlying transport: status code, body
text, and the result of parsing the body as JSON (`none` models a body
that raises `json.JSONDecodeError`). -/
structure HttpResponse where
  status : Nat
  text : List Char
  json : Option PyVal

/-- The HTTP session, abstracted as the mapping from a URL to the
response its GET produces (retries inside the transport are invisible to
the client logic). -/
def Session : Type := List Char → HttpResponse

/-- Test performed by `requests.Response.raise_for_status`: an exception
is raised exactly for 4xx and 5xx status codes. -/
def httpFailed (status : Nat) : Bool :=
  (400 ≤ status && status < 600)

/-- Method `AflowAPI._make_request` (src/aflow.py lines 62-69): GET the
URL, raise `RuntimeError` on an HTTP error status, else return the
response.  The second component is the list of URLs the session fetched.
The message detail produced by the HTTP library for the wrapped
`HTTPError` is not modelled beyond the fixed text of the f-string. -/
def make_request (session : Session) (url : List Char) :
    PyOutcome HttpResponse × List (List Char) :=
  let r := session url
  if httpFailed r.status then
    (.runtimeError "Failed to download AFLUX data.", [url])
  else
    (.ok r, [url])

/-- Property `AflowAPI.base_url` (src/aflow.py lines 86-88). -/
def base_url (cfg : AflowConfig) : List Char :=
  cfg.server ++ cfg.api

/-- Guard of src/aflow.py line 108: `chunk_size is not None and chunk_size < 1`. -/
def chunkSizeInvalid : Option Int → Bool
  | some c => decide (c < 1)
  | none => false

/-- Guard of src/aflow.py line 111: `paging is not None and paging < 0`. -/
def pagingInvalid : Option Int → Bool
  | some p => decide (p < 0)
  | none => false

/-- Python `paging or self.DEFAULT_PAGING` (src/aflow.py line 117): both
`None` and `0` are falsy, so either is replaced by the default. -/
def pagingOrDefault (cfg : AflowConfig) : Option Int → Int
  | none => cfg.defaultPaging
  | some p => if p = 0 then cfg.defaultPaging else p

/-- URL built by `AflowAPI.request` (src/aflow.py lines 117-125): the
paging directive uses `$paging(<paging>,<chunk_size>)` when a chunk size
is given and `$paging(<paging>)` otherwise, and the whole
paging-and-format suffix is skipped when `no_directives` is set. -/
def requestUrl (cfg : AflowConfig) (matchbook : List Char)
    (paging chunk_size : Option Int) (no_directives : Bool) : List Char :=
  let paging2 := pagingOrDefault cfg paging
  let paging_str :=
    match chunk_size with
    | some c => ("$paging(").data ++ intStr paging2 ++ (",").data ++ intStr c ++ (")").data
    | none => ("$paging(").data ++ intStr paging2 ++ (")").data
  if !no_directives then
    base_url cfg ++ matchbook ++ paging_str ++ ("format(json)").data
  else
    base_url cfg ++ matchbook

/-- JSON-parsing step of `AflowAPI.request` (src/aflow.py lines 129-134)
applied to the result of `_make_request`: a raised exception propagates,
an unparsable body raises `RuntimeError`. -/
def handleJson : PyOutcome HttpResponse → PyOutcome PyVal
  | .ok r =>
    match r.json with
    | some v => .ok v
    | none => .runtimeError "Failed to decode AFLUX response as JSON"
  | .runtimeError m => .runtimeError m
  | .valueError m => .valueError m
  | .attributeError m => .attributeError m
  | .keyError => .keyError
  | .typeError => .typeError
  | .indexError => .indexError

/-- Method `AflowAPI.request` (src/aflow.py lines 90-134): validate the
arguments, build the URL, GET it, and parse the body as JSON.  The second
component is the list of URLs the session fetched (empty when the method
raises before any network call). -/
def request (cfg : AflowConfig) (session : Session) (matchbook : List Char)
    (paging chunk_size : Option Int) (no_directives : Bool) :
    PyOutcome PyVal × List (List Char) :=
  if chunkSizeInvalid chunk_size then
    (.valueError "chunk_size must be greater than 0", [])
  else if pagingInvalid paging then
    (.valueError "paging must be greater than or equal to 0", [])
  else if !(isQueryValid cfg matchbook) then
    (.valueError "Invalid query: contains invalid characters or keywords", [])
  else
    let r := make_request session (requestUrl cfg matchbook paging chunk_size no_directives)
    (handleJson r.1, r.2)

/-- C2: if `chunk_size < 1`, or `paging < 0`, or the matchbook fails
validation, `request` raises `ValueError` and the session issues no GET. -/
theorem request_invalid_args (cfg : AflowConfig) (session : Session)
    (matchbook : List Char) (paging chunk_size : Option Int) (no_directives : Bool)
    (h : chunkSizeInvalid chunk_size = true ∨ pagingInvalid paging = true ∨
      isQueryValid cfg matchbook = false) :
    (request cfg session matchbook paging chunk_size no_directives).1.isValueError = true ∧
    (request cfg session matchbook paging chunk_size no_directives).2 = [] := by
  unfold request
  rcases h with h | h | h
  · rw [if_pos h]; exact ⟨rfl, rfl⟩
  · by_cases hc : chunkSizeInvalid chunk_size = true
    · rw [if_pos hc]; exact ⟨rfl, rfl⟩
    · rw [if_neg hc, if_pos h]; exact ⟨rfl, rfl⟩
  · by_cases hc : chunkSizeInvalid chunk_size = true
    · rw [if_pos hc]; exact ⟨rfl, rfl⟩
    · rw [if_neg hc]
      by_cases hp : pagingInvalid paging = true
      · rw [if_pos hp]; exact ⟨rfl, rfl⟩
      · rw [if_neg hp, h]; exact ⟨rfl, rfl⟩

theorem make_request_gets (session : Session) (url : List Char) :
    (make_request session url).2 = [url] := by
  unfold make_request
  by_cases h : httpFailed (session url).status = true <;> simp [h]

theorem request_gets (cfg : AflowConfig) (session : Session) (matchbook : List Char)
    (paging chunk_size : Option Int) (no_directives : Bool)
    (hc : chunkSizeInvalid chunk_size = false) (hp : pagingInvalid paging = false)
    (hv : isQueryValid cfg matchbook = true) :
    (request cfg session matchbook paging chunk_size no_directives).2 =
      [requestUrl cfg matchbook paging chunk_size no_directives] := by
  simp [request, hc, hp, hv, make_request_gets]

/-- C3: for a valid matchbook, the URL requested is the base URL plus the
matchbook plus `$paging(<default>)format(json)` when paging and chunk
size are both unset, `$paging(<default>,c)format(json)` when only a chunk
size `c ≥ 1` is given, and nothing extra (matchbook verbatim) when
`no_directives` is true. -/
theorem request_url_spec (cfg : AflowConfig) (session : Session) (matchbook : List Char)
    (hv : isQueryValid cfg matchbook = true) :
    ((request cfg session matchbook none none false).2 =
      [base_url cfg ++ matchbook ++ ("$paging(").data ++ intStr cfg.defaultPaging ++
        (")format(json)").data]) ∧
    (∀ c : Int, 1 ≤ c →
      (request cfg session matchbook none (some c) false).2 =
        [base_url cfg ++ matchbook ++ ("$paging(").data ++ intStr cfg.defaultPaging ++
          (",").data ++ intStr c ++ (")format(json)").data]) ∧
    ((request cfg session matchbook none none true).2 =
      [base_url cfg ++ matchbook]) := by
  refine ⟨?_, fun c hc => ?_, ?_⟩
  · rw [request_gets cfg session matchbook none none false rfl rfl hv]
    simp [requestUrl, pagingOrDefault]
  · rw [request_gets cfg session matchbook none (some c) false ?hc rfl hv]
    · simp [requestUrl, pagingOrDefault]
    · simp only [chunkSizeInvalid, decide_eq_false_iff_not, not_lt]
      exact hc
  · rw [request_gets cfg session matchbook none none true rfl rfl hv]
    simp [requestUrl]

/-- Modelled from the spec: the constant `AFLOW_DEFAULT_PAGING` of
`src/utils/constants.py` is missing from the sources.  The spec fixes
only that it is "a fixed default page value"; the `request` docstring
(src/aflow.py line 102) states that by default "the query will be done
on all pages at once", which in AFLUX is the paging directive value 0. -/
def AFLOW_DEFAULT_PAGING : Int := 0

/-- C4: an explicitly supplied paging value `p ≥ 0` (including 0) ends up
verbatim in the paging directive, and the default paging value is used
exactly when `paging` is not supplied. -/
theorem request_paging_explicit (cfg : AflowConfig) (session : Session)
    (matchbook : List Char) (p : Int)
    (hd : cfg.defaultPaging = AFLOW_DEFAULT_PAGING)
    (hv : isQueryValid cfg matchbook = true) (hp : 0 ≤ p) :
    ((request cfg session matchbook (some p) none false).2 =
      [base_url cfg ++ matchbook ++ ("$paging(").data ++ intStr p ++
        (")format(json)").data]) ∧
    ((request cfg session matchbook none none false).2 =
      [base_url cfg ++ matchbook ++ ("$paging(").data ++ intStr cfg.defaultPaging ++
        (")format(json)").data]) := by
  constructor
  · have hpv : pagingInvalid (some p) = false := by
      simp only [pagingInvalid, decide_eq_false_iff_not, not_lt]
      exact hp
    rw [request_gets cfg session matchbook (some p) none false rfl hpv hv]
    by_cases h0 : p = 0
    · subst h0
      simp [requestUrl, pagingOrDefault, hd, AFLOW_DEFAULT_PAGING]
    · simp [requestUrl, pagingOrDefault, h0]
  · rw [request_gets cfg session matchbook none none false rfl rfl hv]
    simp [requestUrl, pagingOrDefault]

/-- Concrete sample configuration for evaluating the client: ASCII
character classes, a small operator and keyword set, and the modelled
default paging value. -/
def cfgEx : AflowConfig where
  isspace := fun c => c == ' ' || c == '\t' || c == '\n' || c == '\r'
  isalpha := fun c => ('a' ≤ c && c ≤ 'z') || ('A' ≤ c && c ≤ 'Z')
  isnumeric := fun c => ('0' ≤ c && c ≤ '9')
  operators := ("(),\x27*").data
  keywords := [("species").data, ("Si").data, ("natoms").data]
  server := ("http://aflow.org").data
  api := ("/API/aflux/?").data
  defaultPaging := AFLOW_DEFAULT_PAGING

/-- Sample session answering every GET with an empty JSON list body. -/
def sessEx : Session :=
  fun _ => ⟨200, ("[]").data, some (.list [])⟩

/-- Sample matchbook that passes validation under `cfgEx`. -/
def mbEx : List Char :=
  ("species(Si) ").data

theorem request_invalid_args_witness :
    (request cfgEx sessEx (("x").data) none (some 0) false).1.isValueError = true ∧
    (request cfgEx sessEx (("x").data) none (some 0) false).2 = [] :=
  request_invalid_args cfgEx sessEx (("x").data) none (some 0) false (Or.inl (by decide))

theorem request_url_spec_witness :
    ((request cfgEx sessEx mbEx none none false).2 =
      [base_url cfgEx ++ mbEx ++ ("$paging(").data ++ intStr cfgEx.defaultPaging ++
        (")format(json)").data]) ∧
    ((request cfgEx sessEx mbEx none (some 5) false).2 =
      [base_url cfgEx ++ mbEx ++ ("$paging(").data ++ intStr cfgEx.defaultPaging ++
        (",").data ++ intStr 5 ++ (")format(json)").data]) ∧
    ((request cfgEx sessEx mbEx none none true).2 =
      [base_url cfgEx ++ mbEx]) := by
  have h := request_url_spec cfgEx sessEx mbEx (by decide)
  exact ⟨h.1, h.2.1 5 (by decide), h.2.2⟩

theorem request_paging_explicit_witness :
    ((request cfgEx sessEx mbEx (some 0) none false).2 =
      [base_url cfgEx ++ mbEx ++ ("$paging(").data ++ intStr 0 ++
        (")format(json)").data]) ∧
    ((request cfgEx sessEx mbEx none none false).2 =
      [base_url cfgEx ++ mbEx ++ ("$paging(").data ++ intStr cfgEx.defaultPaging ++
        (")format(json)").data]) :=
  request_paging_explicit cfgEx sessEx mbEx 0 rfl (by decide) (by decide)

/-- Entry mapping passed by the caller: a Python dict keyed by strings. -/
def Entry : Type := List (List Char × PyVal)

/-- Python `k in d.keys()` on an entry dict.  A read: the dict comes back
unchanged. -/
def dictHasKey (k : List Char) (d : Entry) : Bool × Entry :=
  (d.any (fun kv => kv.1 == k), d)

/-- Python `d[k]` on an entry dict.  A read: the dict comes back
unchanged. -/
def dictGet (k : List Char) (d : Entry) : Option PyVal × Entry :=
  (List.lookup k d, d)

/-- Result of one entry-based operation: the outcome, the URLs the
session fetched, and the entry dict as the operation left it. -/
structure EntryCall (α : Type) where
  outcome : PyOutcome α
  gets : List (List Char)
  entryAfter : Entry

/-- View of a list of Python values as a list of strings (`none` when
some element is not a string, in which case `str.join` raises). -/
def asStrList : List PyVal → Option (List (List Char))
  | [] => some []
  | .str s :: rest => (asStrList rest).map (fun l => s :: l)
  | _ :: _ => none

/-- Python `sep.join(x)`: over a string it joins its characters, over a
list of strings it joins the elements; anything else raises `TypeError`
(modelled by `none`). -/
def pyJoin (sep : List Char) : PyVal → Option (List Char)
  | .str s => some (joinBy sep (s.map (fun c => [c])))
  | .list vs => (asStrList vs).map (joinBy sep)
  | _ => none

/-- URL fetched by `get_contcar` (src/aflow.py lines 175-176). -/
def contcarUrl (a : List Char) : List Char :=
  ("http://").data ++ replaceChar ':' '/' a ++ ("/CONTCAR.relax").data

/-- URL fetched by `get_property` (src/aflow.py lines 194-195). -/
def propertyUrl (a property : List Char) : List Char :=
  ("http://").data ++ replaceChar ':' '/' a ++ ("/?").data ++ property

/-- Method `AflowAPI.get_contcar` (src/aflow.py lines 171-188): check the
`aurl` key, GET the structure file, and insert a species line at index 5
when the line there starts with a numeric character after stripping.
Accessing line 5 of a shorter response, or the first character of a
blank line 5, raises `IndexError`. -/
def get_contcar (cfg : AflowConfig) (session : Session) (entry : Entry) :
    EntryCall (List Char) :=
  let (hk, entry) := dictHasKey (("aurl").data) entry
  if !hk then
    ⟨.valueError "Invalid entry: missing \x27aurl\x27 key.", [], entry⟩
  else
    let (av, entry) := dictGet (("aurl").data) entry
    match av with
    | none => ⟨.keyError, [], entry⟩
    | some (.str aurlRaw) =>
      let mr := make_request session (contcarUrl aurlRaw)
      match mr.1 with
      | .ok r =>
        let poscar_lines := splitOnChar '\n' r.text
        match poscar_lines[5]? with
        | none => ⟨.indexError, mr.2, entry⟩
        | some line5 =>
          match stripList cfg.isspace line5 with
          | [] => ⟨.indexError, mr.2, entry⟩
          | c0 :: _ =>
            if cfg.isnumeric c0 then
              let (sv, entry) := dictGet (("species").data) entry
              match sv with
              | none => ⟨.keyError, mr.2, entry⟩
              | some spv =>
                match pyJoin ([' ']) spv with
                | none => ⟨.typeError, mr.2, entry⟩
                | some sp => ⟨.ok (joinBy (['\n']) (pyInsert 5 sp poscar_lines)), mr.2, entry⟩
            else
              ⟨.ok (joinBy (['\n']) poscar_lines), mr.2, entry⟩
      | .runtimeError m => ⟨.runtimeError m, mr.2, entry⟩
      | .valueError m => ⟨.valueError m, mr.2, entry⟩
      | .attributeError m => ⟨.attributeError m, mr.2, entry⟩
      | .keyError => ⟨.keyError, mr.2, entry⟩
      | .typeError => ⟨.typeError, mr.2, entry⟩
      | .indexError => ⟨.indexError, mr.2, entry⟩
    | some _ =>
      ⟨.attributeError "object has no attribute \x27replace\x27", [], entry⟩

/-- Method `AflowAPI.get_property` (src/aflow.py lines 190-203): check
the `aurl` key, GET the property URL, strip the body and split it on
`;`.  The source then loops over the pieces rebinding the loop variable
to `value.strip().split(",")`; the loop has no effect on the returned
list and is kept here as a discarded computation. -/
def get_property (cfg : AflowConfig) (session : Session) (entry : Entry)
    (property : List Char) : EntryCall (List (List Char)) :=
  let (hk, entry) := dictHasKey (("aurl").data) entry
  if !hk then
    ⟨.valueError "Invalid entry: missing \x27aurl\x27 key.", [], entry⟩
  else
    let (av, entry) := dictGet (("aurl").data) entry
    match av with
    | none => ⟨.keyError, [], entry⟩
    | some (.str aurlRaw) =>
      let mr := make_request session (propertyUrl aurlRaw property)
      match mr.1 with
      | .ok r =>
        let property_value := splitOnChar ';' (stripList cfg.isspace r.text)
        let _ := property_value.map (fun value => splitOnChar ',' (stripList cfg.isspace value))
        ⟨.ok property_value, mr.2, entry⟩
      | .runtimeError m => ⟨.runtimeError m, mr.2, entry⟩
      | .valueError m => ⟨.valueError m, mr.2, entry⟩
      | .attributeError m => ⟨.attributeError m, mr.2, entry⟩
      | .keyError => ⟨.keyError, mr.2, entry⟩
      | .typeError => ⟨.typeError, mr.2, entry⟩
      | .indexError => ⟨.indexError, mr.2, entry⟩
    | some _ =>
      ⟨.attributeError "object has no attribute \x27replace\x27", [], entry⟩

theorem splitOnChar_ne_nil (sep : Char) (t : List Char) : splitOnChar sep t ≠ [] := by
  cases t with
  | nil => simp [splitOnChar]
  | cons c rest =>
    simp only [splitOnChar]
    cases splitOnChar sep rest with
    | nil => simp
    | cons h tl => by_cases hc : c = sep <;> simp [hc]

theorem joinBy_head_cons (sep : List Char) (c : Char) (h : List Char)
    (tl : List (List Char)) :
    joinBy sep ((c :: h) :: tl) = c :: joinBy sep (h :: tl) := by
  cases tl <;> simp [joinBy]

theorem joinBy_splitOnChar (sep : Char) (t : List Char) :
    joinBy [sep] (splitOnChar sep t) = t := by
  induction t with
  | nil => rfl
  | cons c rest ih =>
    simp only [splitOnChar]
    cases hs : splitOnChar sep rest with
    | nil => exact absurd hs (splitOnChar_ne_nil sep rest)
    | cons h tl =>
      rw [hs] at ih
      dsimp only
      by_cases hc : c = sep
      · subst hc
        simp only [if_pos rfl]
        cases tl <;> simp [joinBy] <;> simpa [joinBy] using ih
      · rw [if_neg hc, joinBy_head_cons, ih]

theorem any_key_of_lookup {k : List Char} {v : PyVal} :
    ∀ {d : Entry}, List.lookup k d = some v → d.any (fun kv => kv.1 == k) = true := by
  intro d
  induction d with
  | nil => simp [List.lookup]
  | cons kv rest ih =>
    rcases kv with ⟨k1, v1⟩
    simp only [List.lookup, List.any_cons]
    by_cases hk : k = k1
    · subst hk; simp
    · have hne : (k == k1) = false := beq_eq_false_iff_ne.mpr hk
      have hne2 : (k1 == k) = false := beq_eq_false_iff_ne.mpr (Ne.symm hk)
      rw [hne, hne2]
      simp only [Bool.false_or]
      exact ih

theorem asStrList_map_str (sp : List (List Char)) :
    asStrList (sp.map PyVal.str) = some sp := by
  induction sp with
  | nil => rfl
  | cons s rest ih => simp [asStrList, ih]

/-- C6: with an `aurl` entry and a fetched structure text `t`, when line
index 5 of `t` strips to a string starting with a numeric character,
`get_contcar` returns `t` with one extra line, the space-joined species
list, inserted at index 5; otherwise it returns `t` unmodified. -/
theorem get_contcar_spec (cfg : AflowConfig) (session : Session) (entry : Entry)
    (a : List Char) (sp : List (List Char)) (t line5 : List Char) (c0 : Char) (cs : List Char)
    (ha : List.lookup (("aurl").data) entry = some (.str a))
    (hsp : List.lookup (("species").data) entry = some (.list (sp.map PyVal.str)))
    (hok : httpFailed (session (contcarUrl a)).status = false)
    (ht : (session (contcarUrl a)).text = t)
    (h5 : (splitOnChar '\n' t)[5]? = some line5)
    (hstrip : stripList cfg.isspace line5 = c0 :: cs) :
    (get_contcar cfg session entry).outcome =
      .ok (if cfg.isnumeric c0
           then joinBy (['\n']) (pyInsert 5 (joinBy ([' ']) sp) (splitOnChar '\n' t))
           else t) := by
  have hk := any_key_of_lookup ha
  by_cases hn : cfg.isnumeric c0 = true
  · simp only [get_contcar, dictHasKey, dictGet, hk, Bool.not_true, Bool.false_eq_true,
      if_false, ha, make_request, hok, ht, h5, hstrip, hn, if_true, hsp, pyJoin,
      asStrList_map_str, if_pos]
    rfl
  · simp only [get_contcar, dictHasKey, dictGet, hk, Bool.not_true, Bool.false_eq_true,
      if_false, ha, make_request, hok, ht, h5, hstrip, hn, joinBy_splitOnChar]

/-- C7: with an `aurl` entry, `get_property` returns the response text
stripped of outer whitespace and split on `;`, each piece unmodified (the
inner split on `,` has no effect); on `"1.0; 2.0;3.0"` this yields
`["1.0", " 2.0", "3.0"]`. -/
theorem get_property_spec (cfg : AflowConfig) (session : Session) (entry : Entry)
    (a property t : List Char)
    (ha : List.lookup (("aurl").data) entry = some (.str a))
    (hok : httpFailed (session (propertyUrl a property)).status = false)
    (ht : (session (propertyUrl a property)).text = t) :
    ((get_property cfg session entry property).outcome =
      .ok (splitOnChar ';' (stripList cfg.isspace t))) ∧
    splitOnChar ';' (stripList (fun c => c == ' ' || c == '\t' || c == '\n' || c == '\r')
        (("1.0; 2.0;3.0").data)) =
      [("1.0").data, (" 2.0").data, ("3.0").data] := by
  constructor
  · have hk := any_key_of_lookup ha
    simp only [get_property, dictHasKey, dictGet, hk, Bool.not_true, Bool.false_eq_true,
      if_false, ha, make_request, hok, ht]
  · rfl

/-- C8: an entry without the `aurl` key makes both `get_contcar` and
`get_property` raise `ValueError` with no GET issued. -/
theorem missing_aurl_spec (cfg : AflowConfig) (session : Session) (entry : Entry)
    (property : List Char)
    (h : entry.any (fun kv => kv.1 == ("aurl").data) = false) :
    ((get_contcar cfg session entry).outcome.isValueError = true ∧
     (get_contcar cfg session entry).gets = []) ∧
    ((get_property cfg session entry property).outcome.isValueError = true ∧
     (get_property cfg session entry property).gets = []) := by
  constructor
  · simp [get_contcar, dictHasKey, h, PyOutcome.isValueError]
  · simp [get_property, dictHasKey, h, PyOutcome.isValueError]

/-- C9: neither `get_contcar` nor `get_property` modifies the
caller-supplied entry mapping, on any execution path. -/
theorem entry_not_mutated (cfg : AflowConfig) (session : Session) (entry : Entry)
    (property : List Char) :
    (get_contcar cfg session entry).entryAfter = entry ∧
    (get_property cfg session entry property).entryAfter = entry := by
  constructor
  · unfold get_contcar
    simp only [dictHasKey, dictGet]
    repeat (first | rfl | split)
  · unfold get_property
    simp only [dictHasKey, dictGet]
    repeat (first | rfl | split)

/-- Sample entry with an `aurl` locator and a two-element species list. -/
def entryEx : Entry :=
  [(("aurl").data, .str (("aflowlib.duke.edu:AFLOWDATA/x").data)),
   (("species").data, .list [.str (("Si").data), .str (("O").data)])]

/-- Sample session returning a structure file in the legacy format whose
line at index 5 is the numeric counts line `2 4`. -/
def sessPoscar : Session :=
  fun _ => ⟨200, ("TiO2\n1.0\n3 0 0\n0 3 0\n0 0 3\n2 4\nDirect\n").data, none⟩

/-- Sample session returning a property body. -/
def sessProp : Session :=
  fun _ => ⟨200, ("1.0; 2.0;3.0").data, none⟩

/-- Sample session returning a body with only two lines. -/
def sessShort : Session :=
  fun _ => ⟨200, ("a\nb").data, none⟩

/-- Sample session returning a body whose line at index 5 is blank. -/
def sessBlank : Session :=
  fun _ => ⟨200, ("a\nb\nc\nd\ne\n \ng").data, none⟩

theorem get_contcar_spec_witness :
    (get_contcar cfgEx sessPoscar entryEx).outcome =
      .ok (if cfgEx.isnumeric '2'
           then joinBy (['\n']) (pyInsert 5 (joinBy ([' ']) [("Si").data, ("O").data])
             (splitOnChar '\n' (("TiO2\n1.0\n3 0 0\n0 3 0\n0 0 3\n2 4\nDirect\n").data)))
           else ("TiO2\n1.0\n3 0 0\n0 3 0\n0 0 3\n2 4\nDirect\n").data) :=
  get_contcar_spec cfgEx sessPoscar entryEx (("aflowlib.duke.edu:AFLOWDATA/x").data)
    [("Si").data, ("O").data] (("TiO2\n1.0\n3 0 0\n0 3 0\n0 0 3\n2 4\nDirect\n").data)
    (("2 4").data) '2' ((" 4").data) rfl rfl rfl rfl rfl rfl

theorem get_property_spec_witness :
    ((get_property cfgEx sessProp entryEx (("energy").data)).outcome =
      .ok (splitOnChar ';' (stripList cfgEx.isspace (("1.0; 2.0;3.0").data)))) ∧
    splitOnChar ';' (stripList (fun c => c == ' ' || c == '\t' || c == '\n' || c == '\r')
        (("1.0; 2.0;3.0").data)) =
      [("1.0").data, (" 2.0").data, ("3.0").data] :=
  get_property_spec cfgEx sessProp entryEx (("aflowlib.duke.edu:AFLOWDATA/x").data)
    (("energy").data) (("1.0; 2.0;3.0").data) rfl rfl rfl

theorem missing_aurl_spec_witness :
    ((get_contcar cfgEx sessEx []).outcome.isValueError = true ∧
     (get_contcar cfgEx sessEx []).gets = []) ∧
    ((get_property cfgEx sessEx [] (("energy").data)).outcome.isValueError = true ∧
     (get_property cfgEx sessEx [] (("energy").data)).gets = []) :=
  missing_aurl_spec cfgEx sessEx [] (("energy").data) rfl

/-- C10: `get_contcar` is partial over response bodies: a body with fewer
than six lines, or one whose line at index 5 strips to the empty string,
makes `poscar_lines[5].strip()[0]` raise `IndexError`, an error kind
distinct from the invalid-argument, transport and decode errors. -/
theorem get_contcar_partial :
    (get_contcar cfgEx sessShort entryEx).outcome = PyOutcome.indexError ∧
    (get_contcar cfgEx sessBlank entryEx).outcome = PyOutcome.indexError :=
  ⟨rfl, rfl⟩

/-- Attribute names defined on `AflowAPI` in src/aflow.py: the seven
class attributes (lines 23-29), the methods and the property (lines
31-203), and the two instance attributes set in `__init__` (lines
35-36). -/
def aflowAPIMembers : List (List Char) :=
  [("SERVER").data, ("API").data, ("PROTOCOLS").data, ("STATUS_FORCELIST").data,
   ("API_KEYWORDS").data, ("API_OPERATORS").data, ("DEFAULT_PAGING").data,
   ("__init__").data, ("__enter__").data, ("__exit__").data,
   ("_create_session").data, ("_make_request").data, ("_is_query_valid").data,
   ("base_url").data, ("request").data, ("help").data,
   ("get_contcar").data, ("get_property").data,
   ("max_retries").data, ("session").data]

theorem aflux_request_not_member :
    aflowAPIMembers.contains (("aflux_request").data) = false := by decide

/-- Python attribute lookup of `self.aflux_request`, performed by `help`
at src/aflow.py lines 145 and 154.  `AflowAPI` defines no attribute of
that name (see `aflowAPIMembers`; the request method is called
`request`), so the lookup raises `AttributeError`: the result is `none`.
Were the attribute present it would be a bound method sending a
matchbook with a `no_directives` flag, which is the type recorded here. -/
def aflux_request_attr :
    Option (List Char → Bool → PyOutcome PyVal × List (List Char)) :=
  none

/-- Result of `AflowAPI.help`: the outcome, the strings printed, and the
URLs the session fetched. -/
structure HelpResult where
  outcome : PyOutcome Unit
  prints : List (List Char)
  gets : List (List Char)

/-- Propagation of a raised exception into a `None`-returning method. -/
def PyOutcome.toUnitErr : PyOutcome α → PyOutcome Unit
  | .ok _ => .ok ()
  | .valueError m => .valueError m
  | .runtimeError m => .runtimeError m
  | .attributeError m => .attributeError m
  | .keyError => .keyError
  | .typeError => .typeError
  | .indexError => .indexError

mutual
/-- Python `repr()` for the value shapes above (string escaping inside
`repr` is not modelled). -/
def pyRepr : PyVal → List Char
  | .str s => Char.ofNat 39 :: s ++ [Char.ofNat 39]
  | .int i => intStr i
  | .list vs => ("[").data ++ pyReprList vs ++ ("]").data
  | .dict d => ("\x7b").data ++ pyReprPairs d ++ ("\x7d").data

/-- Comma-separated `repr()`s of the elements of a list. -/
def pyReprList : List PyVal → List Char
  | [] => []
  | [v] => pyRepr v
  | v :: vs => pyRepr v ++ (", ").data ++ pyReprList vs

/-- Comma-separated `repr()`s of the items of a dict. -/
def pyReprPairs : List (List Char × PyVal) → List Char
  | [] => []
  | [(k, v)] => pyRepr (.str k) ++ (": ").data ++ pyRepr v
  | (k, v) :: rest =>
    pyRepr (.str k) ++ (": ").data ++ pyRepr v ++ (", ").data ++ pyReprPairs rest
end

/-- Python `str()` as applied by f-string interpolation. -/
def pyStr : PyVal → List Char
  | .str s => s
  | v => pyRepr v

/-- Method `AflowAPI.help` (src/aflow.py lines 136-169).  Both branches
start by calling `self.aflux_request` (lines 145 and 154), an attribute
the class does not define, so the attribute lookup raises
`AttributeError` before any request is issued; the `except RuntimeError`
of the keyword branch does not catch it.  The remaining code, modelled
against the bound method the lookup would have produced, validates the
keyword, downgrades a `RuntimeError` of the help request to a printed
message, and otherwise formats and prints the help block. -/
def help (cfg : AflowConfig) (keyword : Option (List Char)) : HelpResult :=
  match keyword with
  | none =>
    match aflux_request_attr with
    | none =>
      ⟨.attributeError "\x27AflowAPI\x27 object has no attribute \x27aflux_request\x27", [], []⟩
    | some f =>
      let rg := f [] true
      match rg.1 with
      | .ok helpData =>
        match pyJoin (("\n").data) helpData with
        | some s => ⟨.ok (), [s], rg.2⟩
        | none => ⟨.typeError, [], rg.2⟩
      | e => ⟨e.toUnitErr, [], rg.2⟩
  | some kw =>
    if !(isQueryValid cfg kw) then
      ⟨.valueError "Invalid query: contains invalid keywords", [], []⟩
    else
      match aflux_request_attr with
      | none =>
        ⟨.attributeError "\x27AflowAPI\x27 object has no attribute \x27aflux_request\x27", [], []⟩
      | some f =>
        let rg := f ((("help(").data) ++ kw ++ ((")").data)) true
        match rg.1 with
        | .runtimeError _ =>
          ⟨.ok (), [("No help information found for keyword: ").data ++ kw], rg.2⟩
        | .ok helpData =>
          match helpData with
          | .dict d =>
            match List.lookup kw d with
            | none => ⟨.keyError, [], rg.2⟩
            | some (.dict ed) =>
              match List.lookup (("description").data) ed,
                    List.lookup (("units").data) ed,
                    List.lookup (("status").data) ed,
                    List.lookup (("__comment__").data) ed with
              | some dv, some uv, some sv, some cv =>
                match pyJoin (("\n    ").data) cv with
                | none => ⟨.typeError, [], rg.2⟩
                | some cj =>
                  let comment := stripList cfg.isspace cj
                  let help_str :=
                    kw ++ (":\n").data ++
                    ("  description: ").data ++ pyStr dv ++ ("\n").data ++
                    ("  units: ").data ++ pyStr uv ++ ("\n").data ++
                    ("  status: ").data ++ pyStr sv ++ ("\n").data ++
                    (if comment.isEmpty then [] else ("  comment:\n    ").data ++ comment)
                  ⟨.ok (), [help_str], rg.2⟩
              | _, _, _, _ => ⟨.keyError, [], rg.2⟩
            | some _ => ⟨.typeError, [], rg.2⟩
          | _ => ⟨.typeError, [], rg.2⟩
        | e => ⟨e.toUnitErr, [], rg.2⟩

/-- C5 (failing input): for the keyword `"species "`, which passes
validation, `help` raises `AttributeError` with nothing printed and no
GET issued — the call `self.aflux_request` fails before the help request
exists, and the `except RuntimeError` cannot catch it — instead of
printing a no-help message on transport failure as claimed; for a
keyword failing validation it does raise `ValueError` as claimed. -/
theorem help_attribute_error :
    ((help cfgEx (some (("species ").data))).outcome =
      .attributeError "\x27AflowAPI\x27 object has no attribute \x27aflux_request\x27" ∧
     (help cfgEx (some (("species ").data))).prints = [] ∧
     (help cfgEx (some (("species ").data))).gets = []) ∧
    (help cfgEx (some (("x").data))).outcome =
      .valueError "Invalid query: contains invalid keywords" :=
  ⟨⟨rfl, rfl, rfl⟩, rfl⟩

end PyAflow
